import Mathlib

/-!
Verification of the agent-orchestration subsystem
(labs/05-agent-orchestration/solution: query_agent.py, router_agent.py,
action_agent.py, pipeline.py).

The Python modules are shallowly embedded: dataclasses become structures,
Python dicts become association lists with Python dict semantics
(lookup, insert-or-replace, update), JSON values returned by the
language-model collaborator become the `PyVal` type, and Python
exceptions become `Except PyErr`.  External collaborators (the
language-model completion service, the retrieval service) are the only
non-deterministic inputs; they are passed to the embedded functions as
explicit oracle arguments.  Timestamps and freshly generated UUIDs are
likewise threaded as explicit arguments (`datetime.utcnow` and
`uuid.uuid4` are environment inputs; no property below depends on their
values beyond freshness, which is taken as a hypothesis where needed).
-/

namespace Orchestration

/-- A Python value as produced by `json.loads` on the collaborator output
or stored in a `parameters` dict.  Python `None` and JSON `null` are both
`none_`; Python int and float are collapsed into `num` over `Rat`. -/
inductive PyVal where
  | none_ : PyVal
  | bool_ (b : Bool) : PyVal
  | num (q : Rat) : PyVal
  | str_ (s : String) : PyVal
  | list_ (xs : List PyVal) : PyVal
  | dict (d : List (String × PyVal)) : PyVal
deriving Repr

/-- Python dict lookup `d[k]` / `d.get(k)` on an association list:
first binding wins (the insert operation below keeps keys unique). -/
def pyGet {α : Type} (d : List (String × α)) (k : String) : Option α :=
  match d with
  | [] => none
  | (k', v) :: rest => if k' = k then some v else pyGet rest k

/-- Python dict assignment `d[k] = v`: replaces the value in place if the
key is present, appends a new binding otherwise (insertion order kept). -/
def pyInsert {α : Type} (d : List (String × α)) (k : String) (v : α) :
    List (String × α) :=
  match d with
  | [] => [(k, v)]
  | (k', v') :: rest =>
      if k' = k then (k', v) :: rest else (k', v') :: pyInsert rest k v

/-- Python `d.update(e)`: folds `pyInsert` over the entries of `e`. -/
def pyUpdate {α : Type} (d e : List (String × α)) : List (String × α) :=
  e.foldl (fun acc kv => pyInsert acc kv.1 kv.2) d

/-- Python `v is None`. -/
def PyVal.isNone : PyVal → Bool
  | .none_ => true
  | _ => false

/-- Python truthiness (`bool(v)`) for the embedded value type. -/
def pyTruthy : PyVal → Bool
  | .none_ => false
  | .bool_ b => b
  | .num q => decide (q ≠ 0)
  | .str_ s => decide (s ≠ "")
  | .list_ xs => !xs.isEmpty
  | .dict d => !d.isEmpty

/-- Python `str(v)`.  Exact on the scalar cases that flow through the
pipeline (strings, numbers, booleans, None); container reprs are
abbreviated since no property below inspects them, and the numeric repr
uses the `Rat` printer rather than the CPython float printer. -/
def pyStr : PyVal → String
  | .none_ => "None"
  | .bool_ true => "True"
  | .bool_ false => "False"
  | .num q => toString q
  | .str_ s => s
  | .list_ _ => "<list>"
  | .dict _ => "<dict>"

/-!
Python string primitives, implemented over the character list so that
they reduce inside the kernel (the corresponding `String` library
functions use well-founded recursion on byte positions and do not). -/

/-- Python `s.strip()` with the default whitespace set. -/
def pyStrip (s : String) : String :=
  ⟨List.reverse ((List.reverse (s.data.dropWhile Char.isWhitespace)).dropWhile
    Char.isWhitespace)⟩

/-- Python `s.lower()` (ASCII case folding, as used on the trigger
keywords and queries of this codebase). -/
def pyLower (s : String) : String := ⟨s.data.map Char.toLower⟩

/-- Python `s.upper()`. -/
def pyUpper (s : String) : String := ⟨s.data.map Char.toUpper⟩

/-- Substring search on character lists (helper for `strContains`). -/
def listContainsSub (needle : List Char) : List Char → Bool
  | [] => needle.isEmpty
  | a :: rest => needle.isPrefixOf (a :: rest) || listContainsSub needle rest

/-- Python `needle in hay` on strings: substring containment. -/
def strContains (hay needle : String) : Bool := listContainsSub needle.data hay.data

/-- Python `s.startswith(p)`. -/
def pyStartsWith (s p : String) : Bool := p.data.isPrefixOf s.data

/-- Digit-string to Nat (helper for the `float(str)` model). -/
def digitsToNat? (cs : List Char) : Option Nat :=
  if cs.isEmpty then none
  else if cs.all Char.isDigit then
    some (cs.foldl (fun n c => 10 * n + (c.toNat - 48)) 0)
  else none

/-- Model of Python `float(str)` on plain decimal literals: optional
sign, digits, optional fractional part.  (Exotic accepted forms such as
exponents, underscores, inf and nan are not modelled; no property below
depends on them.) -/
def parseDecimal? (s : String) : Option Rat :=
  let t := (pyStrip s).data
  let sgnNeg : Bool := match t with | '-' :: _ => true | _ => false
  let body : List Char :=
    match t with
    | '-' :: rest => rest
    | '+' :: rest => rest
    | _ => t
  let sgn : Rat := if sgnNeg then -1 else 1
  match body.span (fun c => c != '.') with
  | (ip, []) => (digitsToNat? ip).map (fun n => sgn * (n : Rat))
  | (ip, _ :: fp) =>
      if fp.contains '.' then none
      else if ip.isEmpty && fp.isEmpty then none
      else
        match (if ip.isEmpty then some 0 else digitsToNat? ip),
              (if fp.isEmpty then some 0 else digitsToNat? fp) with
        | some n, some f =>
            some (sgn * ((n : Rat) + (f : Rat) / ((10 : Rat) ^ fp.length)))
        | _, _ => none

/-- Python exceptions that the embedded code can raise.  Distinct
constructors correspond to distinct raise sites in the source. -/
inductive PyErr where
  /-- The ValueError raised by the empty-query guard in `QueryAgent.analyze`. -/
  | invalidInput
  /-- TypeError from `float()` applied to None, a list, or a dict. -/
  | floatTypeError
  /-- ValueError from `float()` applied to a non-numeric string. -/
  | floatValueError
  /-- AttributeError from `.items()` or `.get` on a non-dict value. -/
  | attributeError
  /-- An exception raised by an external collaborator client call. -/
  | collaboratorError
deriving DecidableEq, Repr

/-- Python `float(v)` (query_agent.py uses it on confidence values). -/
def pyFloat : PyVal → Except PyErr Rat
  | .num q => .ok q
  | .bool_ b => .ok (if b then 1 else 0)
  | .str_ s =>
      match parseDecimal? s with
      | some q => .ok q
      | none => .error .floatValueError
  | .none_ => .error .floatTypeError
  | .list_ _ => .error .floatTypeError
  | .dict _ => .error .floatTypeError

/-- Intent taxonomy (query_agent.py, `class Intent(str, Enum)`). -/
inductive Intent where
  | knowledge_query
  | password_reset
  | ticket_status
  | general_chat
  | escalation
  | course_info
  | unknown
deriving DecidableEq, Repr

/-- The `.value` string of each Intent member. -/
def Intent.value : Intent → String
  | .knowledge_query => "knowledge_query"
  | .password_reset => "password_reset"
  | .ticket_status => "ticket_status"
  | .general_chat => "general_chat"
  | .escalation => "escalation"
  | .course_info => "course_info"
  | .unknown => "unknown"

/-- Python `Intent(s)`: `some` the member with that value, `none` when
the constructor call would raise ValueError. -/
def Intent.ofString? (s : String) : Option Intent :=
  if s = "knowledge_query" then some .knowledge_query
  else if s = "password_reset" then some .password_reset
  else if s = "ticket_status" then some .ticket_status
  else if s = "general_chat" then some .general_chat
  else if s = "escalation" then some .escalation
  else if s = "course_info" then some .course_info
  else if s = "unknown" then some .unknown
  else none

/-- One extracted entity (query_agent.py, `@dataclass class Entity`). -/
structure Entity where
  name : String
  value : String
  entity_type : String
  confidence : Rat
deriving DecidableEq, Repr

/-- Structured output of the understanding stage (query_agent.py,
`@dataclass class QueryResult`).  `requires_clarification` is stored
already coerced through Python truthiness, which is observationally
equivalent since every use in the source is a truthiness test;
`clarification_question` is `none` exactly when the Python field is
None.  `metadata` is the dict built by `_parse_response`. -/
structure QueryResult where
  original_query : String
  intent : Intent
  entities : List Entity
  confidence : Rat
  requires_clarification : Bool := false
  clarification_question : Option PyVal := none
  metadata : List (String × PyVal) := []
deriving Repr

/-- `QueryResult.get_entity`: first entity with the given name. -/
def QueryResult.get_entity (q : QueryResult) (name : String) : Option Entity :=
  q.entities.find? (fun e => e.name = name)

/-- `QueryResult.get_entities_dict`: the dict comprehension
`\x7be.name: e.value for e in self.entities\x7d` (later duplicate wins). -/
def QueryResult.get_entities_dict (q : QueryResult) : List (String × String) :=
  q.entities.foldl (fun acc e => pyInsert acc e.name e.value) []

/-- The guard `not s or not s.strip()`: Python falsiness of the raw
string or of its whitespace-stripped form (used by `QueryAgent.analyze`
and `AgentPipeline.process`). -/
def pyBlank (s : String) : Bool := s = "" || pyStrip s = ""

namespace QueryAgent

/-- The `type_mapping` table in `QueryAgent._parse_entities`. -/
def entityTypeMapping (name : String) : String :=
  if name = "ticket_id" then "identifier"
  else if name = "course_number" then "identifier"
  else if name = "user_name" then "name"
  else if name = "date" then "date"
  else if name = "topic" then "topic"
  else if name = "urgency" then "attribute"
  else "unknown"

/-- The per-entity confidence read in `QueryAgent._parse_entities`:
`float(confidences_dict.get(name, 0.8))`.  `.get` on a non-dict value
raises AttributeError; `float()` can raise as modelled by `pyFloat`. -/
def entityConfidence (confidences : PyVal) (name : String) : Except PyErr Rat :=
  match confidences with
  | .dict cd => pyFloat ((pyGet cd name).getD (.num (mkRat 4 5)))
  | _ => .error .attributeError

/-- The loop of `QueryAgent._parse_entities`: iterates the entities dict
in insertion order, skips None values, reads the per-entity confidence
and builds the Entity list. -/
def parseEntitiesList (confidences : PyVal) :
    List (String × PyVal) → Except PyErr (List Entity)
  | [] => .ok []
  | (name, value) :: rest =>
      if value.isNone then parseEntitiesList confidences rest
      else
        match entityConfidence confidences name with
        | .error e => .error e
        | .ok c =>
            match parseEntitiesList confidences rest with
            | .error e => .error e
            | .ok es =>
                .ok ({ name := name, value := pyStr value,
                       entity_type := entityTypeMapping name,
                       confidence := c } :: es)

/-- `QueryAgent._parse_entities`: raises AttributeError when the
entities value is not a dict (Python `.items()` on a non-dict). -/
def parseEntities (entities_val confidences : PyVal) : Except PyErr (List Entity) :=
  match entities_val with
  | .dict ed => parseEntitiesList confidences ed
  | _ => .error .attributeError

/-- `QueryAgent._parse_response`: builds a QueryResult from the parsed
JSON object returned by the language-model collaborator.  An intent that
is missing, non-string, or outside the taxonomy is coerced to
`Intent.unknown` (the caught ValueError of `Intent(intent_str)`); a
missing confidence defaults to 0.5; `float()` coercions can raise. -/
def parseResponse (original_query : String)
    (llm_response : List (String × PyVal)) : Except PyErr QueryResult :=
  let intent : Intent :=
    match (pyGet llm_response "intent").getD (.str_ "unknown") with
    | .str_ s => (Intent.ofString? s).getD Intent.unknown
    | _ => Intent.unknown
  match parseEntities ((pyGet llm_response "entities").getD (.dict []))
      ((pyGet llm_response "entity_confidences").getD (.dict [])) with
  | .error e => .error e
  | .ok entities =>
      match pyFloat ((pyGet llm_response "confidence").getD (.num (mkRat 1 2))) with
      | .error e => .error e
      | .ok confidence =>
          .ok { original_query := original_query
                intent := intent
                entities := entities
                confidence := confidence
                requires_clarification :=
                  pyTruthy ((pyGet llm_response "requires_clarification").getD (.bool_ false))
                clarification_question :=
                  match pyGet llm_response "clarification_question" with
                  | some .none_ => none
                  | some v => some v
                  | none => none
                metadata := [("urgency", (pyGet llm_response "urgency").getD (.str_ "low"))] }

/-- `QueryAgent.analyze`: validates that the query is not empty or
all-whitespace before the completion call, then parses the collaborator
response.  `llmOutcome` is the completion-call oracle: the call either
raises or returns the already-`json.loads`-parsed object (JSON mode
guarantees a JSON object at top level).  The second component counts
the completion calls attempted, so the guard provably fires before any
outbound call. -/
def analyze (query : String)
    (llmOutcome : Except Unit (List (String × PyVal))) :
    Except PyErr QueryResult × Nat :=
  if pyBlank query then (.error .invalidInput, 0)
  else
    match llmOutcome with
    | .error _ => (.error .collaboratorError, 1)
    | .ok llm_response => (parseResponse query llm_response, 1)

end QueryAgent

/-!
Routing stage (router_agent.py).  `RouterAgent.route` is deterministic
and rule-based; it makes no language-model call, so it is embedded as a
pure function.  The `reasoning` strings elide the interpolated
float/list formatting of the Python f-strings (no property below
inspects `reasoning`). -/

/-- Priority levels (router_agent.py, `class Priority(str, Enum)`). -/
inductive Priority where
  | low
  | medium
  | high
  | urgent
deriving DecidableEq, Repr

/-- Output of the routing stage (router_agent.py,
`@dataclass class RoutingDecision`). -/
structure RoutingDecision where
  target_agent : String
  parameters : List (String × PyVal) := []
  fallback_agent : Option String := none
  priority : Priority := .medium
  reasoning : String := ""
  requires_escalation : Bool := false
  escalation_reason : Option String := none
deriving Repr

/-- A str→str dict embedded as a PyVal dict. -/
def strDictToPyVal (d : List (String × String)) : PyVal :=
  .dict (d.map (fun kv => (kv.1, .str_ kv.2)))

namespace RouterAgent

/-- `RouterAgent.ROUTING_TABLE`: Intent → (primary agent, fallback).
The table is total over `Intent`, so the `.get` default
`("general_agent", None)` of the source is unreachable. -/
def ROUTING_TABLE (intent : Intent) : String × Option String :=
  match intent with
  | .knowledge_query => ("retrieve_agent", some "general_agent")
  | .password_reset => ("retrieve_agent", some "escalation_agent")
  | .ticket_status => ("ticket_agent", some "general_agent")
  | .general_chat => ("general_agent", none)
  | .escalation => ("escalation_agent", none)
  | .course_info => ("retrieve_agent", some "general_agent")
  | .unknown => ("clarification_agent", some "general_agent")

/-- `RouterAgent.ESCALATION_TRIGGERS` (in source order). -/
def ESCALATION_TRIGGERS : List String :=
  ["lawyer", "attorney", "legal", "sue", "lawsuit",
   "suicide", "harm", "hurt myself", "kill", "die",
   "supervisor", "manager", "complaint", "incompetent",
   "emergency", "urgent", "immediately", "right now", "asap",
   "human", "real person", "speak to someone", "talk to someone"]

/-- The `safety_triggers` set of `_check_escalation_triggers`. -/
def SAFETY_TRIGGERS : List String :=
  ["suicide", "harm", "hurt myself", "kill", "die"]

/-- The legal-trigger set of `_check_escalation_triggers`. -/
def LEGAL_TRIGGERS : List String := ["lawyer", "attorney", "legal", "sue"]

/-- `RouterAgent.CONFIDENCE_THRESHOLD = 0.6`. -/
def CONFIDENCE_THRESHOLD : Rat := mkRat 3 5

/-- The trigger scan of `_check_escalation_triggers`: every trigger
keyword contained (case-insensitively, the caller lowercases) in the
query, in trigger-list order. -/
def triggeredKeywords (query_lower : String) : List String :=
  ESCALATION_TRIGGERS.filter (fun t => strContains query_lower t)

/-- The priority / escalation-reason selection of
`_check_escalation_triggers`: safety beats legal beats the general
reason. -/
def escalationPriorityReason (tk : List String) : Priority × String :=
  if tk.any (fun t => SAFETY_TRIGGERS.contains t) then
    (.urgent, "Safety concern detected - immediate attention required")
  else if tk.any (fun t => LEGAL_TRIGGERS.contains t) then
    (.high, "Legal concern detected - requires human review")
  else
    (.high, "Escalation trigger detected: " ++ String.intercalate ", " tk)

/-- `RouterAgent._check_escalation_triggers`. -/
def checkEscalationTriggers (query : QueryResult) : Option RoutingDecision :=
  let tk := triggeredKeywords (pyLower query.original_query)
  if tk.isEmpty then none
  else
    some { target_agent := "escalation_agent"
           parameters := [("original_query", .str_ query.original_query),
                          ("triggered_keywords", .list_ (tk.map .str_)),
                          ("entities", strDictToPyVal query.get_entities_dict)]
           fallback_agent := none
           priority := (escalationPriorityReason tk).1
           reasoning := "Escalation triggers detected: " ++ String.intercalate ", " tk
           requires_escalation := true
           escalation_reason := some (escalationPriorityReason tk).2 }

/-- `RouterAgent._build_parameters`: base parameters plus the
intent-specific entries. -/
def buildParameters (query : QueryResult) : List (String × PyVal) :=
  let params : List (String × PyVal) :=
    [("query", .str_ query.original_query),
     ("entities", strDictToPyVal query.get_entities_dict),
     ("intent", .str_ query.intent.value),
     ("confidence", .num query.confidence)]
  let entityOr (name : String) : PyVal :=
    match query.get_entity name with
    | some e => .str_ e.value
    | none => .none_
  match query.intent with
  | .ticket_status => pyInsert params "ticket_id" (entityOr "ticket_id")
  | .knowledge_query =>
      pyInsert (pyInsert params "topic" (entityOr "topic"))
        "search_query" (.str_ query.original_query)
  | .password_reset => pyInsert params "user_name" (entityOr "user_name")
  | .course_info =>
      pyInsert (pyInsert params "course_number" (entityOr "course_number"))
        "search_query" (.str_ query.original_query)
  | _ => params

/-- `RouterAgent._determine_priority`: urgency metadata mapped through
`urgency_to_priority` (default medium), with escalation intent forced to
high. -/
def determinePriority (query : QueryResult) : Priority :=
  let urgency := (pyGet query.metadata "urgency").getD (.str_ "low")
  let priority : Priority :=
    match urgency with
    | .str_ s =>
        if s = "high" then .high
        else if s = "medium" then .medium
        else if s = "low" then .low
        else .medium
    | _ => .medium
  if query.intent = .escalation then .high else priority

/-- `RouterAgent.route`: escalation scan, then upstream clarification
flag, then the confidence threshold, then the routing table. -/
def route (query : QueryResult) : RoutingDecision :=
  match checkEscalationTriggers query with
  | some decision => decision
  | none =>
      if query.requires_clarification then
        { target_agent := "clarification_agent"
          parameters := [("question", query.clarification_question.getD .none_),
                         ("original_query", .str_ query.original_query),
                         ("intent_guess", .str_ query.intent.value)]
          fallback_agent := some "general_agent"
          priority := .medium
          reasoning := "QueryAgent requested clarification before proceeding" }
      else if query.confidence < CONFIDENCE_THRESHOLD then
        { target_agent := "clarification_agent"
          parameters := [("intent_guess", .str_ query.intent.value),
                         ("confidence", .num query.confidence),
                         ("original_query", .str_ query.original_query)]
          fallback_agent := some "general_agent"
          priority := .medium
          reasoning := "Low confidence - requesting clarification" }
      else
        { target_agent := (ROUTING_TABLE query.intent).1
          parameters := buildParameters query
          fallback_agent := (ROUTING_TABLE query.intent).2
          priority := determinePriority query
          reasoning := "Intent routed via table" }

end RouterAgent

/-!
Action capabilities (action_agent.py).  The two capabilities whose
behaviour is claim-relevant and not purely language-model-driven are
embedded concretely: TicketStatusAgent (mock ticketing back-end) and
RetrieveActionAgent (retrieval-augmented answering, with the retrieval
collaborator passed as an oracle). -/

/-- Output of an action capability (action_agent.py,
`@dataclass class ActionResult`). -/
structure ActionResult where
  content : String
  sources : List (List (String × PyVal)) := []
  confidence : Rat := mkRat 4 5
  requires_followup : Bool := false
  suggested_actions : List String := []
  metadata : List (String × PyVal) := []
deriving Repr

/-- One record of the `mock_statuses` ticketing table. -/
structure TicketRecord where
  status : String
  assigned_to : String
  last_update : String
  summary : String
deriving DecidableEq, Repr

namespace TicketStatusAgent

/-- The `mock_statuses` table of `TicketStatusAgent.execute`. -/
def MOCK_STATUSES : List (String × TicketRecord) :=
  [("TKT-12345", { status := "In Progress", assigned_to := "Support Team",
                   last_update := "2024-01-15", summary := "Password reset request" }),
   ("TKT-67890", { status := "Resolved", assigned_to := "IT Department",
                   last_update := "2024-01-10", summary := "VPN access issue" })]

/-- The ticket-id normalization: uppercase, then prepend "TKT-" unless
already present. -/
def normalizeTicketId (ticket_id : String) : String :=
  let up := pyUpper ticket_id
  if pyStartsWith up "TKT-" then up else "TKT-" ++ up

/-- The response asking for a ticket number (no-ticket-id branch). -/
def noTicketIdContent : String :=
  "I\x27d be happy to check your ticket status. Could you please provide your ticket number? It usually starts with \x27TKT-\x27 followed by numbers."

/-- The found-ticket response body. -/
def foundContent (tidUpper : String) (t : TicketRecord) : String :=
  "Here\x27s the status of your ticket **" ++ tidUpper ++ "**:\n\n- **Status:** "
    ++ t.status ++ "\n- **Assigned to:** " ++ t.assigned_to
    ++ "\n- **Last Updated:** " ++ t.last_update ++ "\n- **Summary:** " ++ t.summary
    ++ "\n\nIs there anything else you\x27d like to know about this ticket?"

/-- The not-found response body (uses the raw, un-normalized id, as the
source f-string does). -/
def notFoundContent (ticket_id : String) : String :=
  "I couldn\x27t find a ticket with ID **" ++ ticket_id
    ++ "** in our system.\n\nThis could mean:\n- The ticket number might be different (check your confirmation email)\n- The ticket may have been closed and archived\n- There might be a typo in the ticket number\n\nCould you double-check the ticket number? It should look like TKT-12345."

/-- `TicketStatusAgent.execute`.  The second result component counts
lookups into the mock ticketing table, so the no-ticket-id branch
provably never consults the ticketing collaborator.  A present,
truthy, non-string ticket value would raise AttributeError at
`.upper()`. -/
def execute (decision : RoutingDecision) : Except PyErr (ActionResult × Nat) :=
  let ticket_id := (pyGet decision.parameters "ticket_id").getD .none_
  if !(pyTruthy ticket_id) then
    .ok ({ content := noTicketIdContent
           confidence := mkRat 4 5
           requires_followup := true }, 0)
  else
    match ticket_id with
    | .str_ tid =>
        let tidUpper := normalizeTicketId tid
        match pyGet MOCK_STATUSES tidUpper with
        | some t =>
            .ok ({ content := foundContent tidUpper t
                   confidence := mkRat 19 20
                   suggested_actions := ["Add a comment", "Escalate ticket",
                                         "Check another ticket"]
                   metadata := [("ticket_id", .str_ tidUpper),
                                ("ticket_data", .dict
                                  [("status", .str_ t.status),
                                   ("assigned_to", .str_ t.assigned_to),
                                   ("last_update", .str_ t.last_update),
                                   ("summary", .str_ t.summary)])] }, 1)
        | none =>
            .ok ({ content := notFoundContent tid
                   confidence := mkRat 7 10
                   requires_followup := true
                   suggested_actions := ["Try another ticket number",
                                         "Create new ticket", "Talk to support"] }, 1)
    | _ => .error .attributeError

end TicketStatusAgent

/-- One source passage returned by the Lab 04 retrieval collaborator. -/
structure RagSource where
  content : String
  score : Rat
  metadata : List (String × PyVal) := []
deriving Repr

/-- The response of the Lab 04 `RetrieveAgent.query` call. -/
structure RagResponse where
  answer : String
  sources : List RagSource := []
  token_usage : List (String × PyVal) := []
deriving Repr

/-- Outcome of attempting the Lab 04 retrieval pipeline from
`RetrieveActionAgent.execute`: the agent may be unavailable (import
failed), its `query` call may raise, or it returns normally. -/
inductive RagOutcome where
  | noAgent : RagOutcome
  | failed : RagOutcome
  | ok (resp : RagResponse) : RagOutcome

namespace RetrieveActionAgent

/-- `source.content[:200] + "..."` when longer than 200 characters. -/
def contentPreview (c : String) : String :=
  if 200 < c.data.length then String.mk (c.data.take 200) ++ "..." else c

/-- The source-conversion loop (`enumerate(rag_response.sources, 1)`). -/
def convertSourcesFrom (i : Nat) : List RagSource → List (List (String × PyVal))
  | [] => []
  | s :: rest =>
      [("id", .num i),
       ("title", (pyGet s.metadata "source").getD (.str_ ("Source " ++ toString i))),
       ("content_preview", .str_ (contentPreview s.content)),
       ("score", .num s.score)] :: convertSourcesFrom (i + 1) rest

/-- Sources converted to result dicts, numbered from 1. -/
def convertSources (sources : List RagSource) : List (List (String × PyVal)) :=
  convertSourcesFrom 1 sources

/-- `RetrieveActionAgent.execute`.  `ragOutcome` is the retrieval
collaborator oracle; `fallbackLLM` is the completion-call oracle of
`_generate_fallback_response` (only consulted on the degraded path).
The extraction of `search_query` from the parameters mirrors the source
but is consumed by the oracles. -/
def execute (ragOutcome : RagOutcome) (fallbackLLM : Except Unit String)
    (decision : RoutingDecision) : Except Unit ActionResult :=
  let _search_query : PyVal :=
    match pyGet decision.parameters "search_query" with
    | some v => v
    | none =>
        match pyGet decision.parameters "query" with
        | some v => v
        | none => .str_ ""
  match ragOutcome with
  | .ok rag =>
      let sources := convertSources rag.sources
      .ok { content := rag.answer
            sources := sources
            confidence := if sources.isEmpty then mkRat 1 2 else mkRat 17 20
            requires_followup := sources.isEmpty
            suggested_actions := ["Ask a follow-up question", "Need more help?"]
            metadata := [("token_usage", .dict rag.token_usage),
                         ("search_results_count", .num rag.sources.length)] }
  | _ =>
      match fallbackLLM with
      | .ok content =>
          .ok { content := content
                sources := []
                confidence := mkRat 2 5
                requires_followup := true
                suggested_actions := ["Try again", "Speak to human support"]
                metadata := [("fallback_mode", .bool_ true)] }
      | .error e => .error e

end RetrieveActionAgent

/-!
Pipeline orchestrator (pipeline.py).  Turn ids and timestamps are
environment inputs (`uuid.uuid4`, `datetime.utcnow`) on which no
property below depends; they are omitted from the embedded records.
The `context` dict of a Session is used by the source only at key
"all_entities", holding a str→str dict, and an absent key is
observationally equivalent to an empty dict there
(`context.get("all_entities", ...)` with an empty-dict default, plus a
falsiness test), so it is embedded at that type directly. -/

/-- One conversation turn (pipeline.py, `@dataclass class
ConversationTurn`), without the environment-supplied `turn_id` and
`timestamp`. -/
structure ConversationTurn where
  user_message : String
  agent_response : String
  intent : String
  entities : List (String × String)
  routing : String
  confidence : Rat
deriving DecidableEq, Repr

/-- Conversation state (pipeline.py, `@dataclass class Session`),
without the environment-supplied timestamps. -/
structure Session where
  session_id : String
  turns : List ConversationTurn := []
  all_entities : List (String × String) := []
deriving DecidableEq, Repr

/-- `Session.add_turn`: appends the turn to the history and folds the
new entities into the accumulated entity map
(`self.context.setdefault("all_entities", ...).update(entities)`). -/
def Session.add_turn (s : Session) (user_message agent_response intent : String)
    (entities : List (String × String)) (routing : String) (confidence : Rat) :
    Session :=
  { s with
    turns := s.turns ++ [{ user_message := user_message
                           agent_response := agent_response
                           intent := intent
                           entities := entities
                           routing := routing
                           confidence := confidence }]
    all_entities := pyUpdate s.all_entities entities }

/-- The `_sessions` dict of SessionManager. -/
abbrev SessionStore := List (String × Session)

namespace SessionManager

/-- `SessionManager.get_or_create`: an existing session under a truthy
id is returned as is (its `last_activity` refresh involves only the
elided timestamp); otherwise a new session is created and registered,
under the given id when truthy, else under the freshly generated
`freshId` (the uuid4 oracle). -/
def get_or_create (store : SessionStore) (session_id : Option String)
    (freshId : String) : Session × SessionStore :=
  let truthyId : Option String :=
    match session_id with
    | some s => if s = "" then none else some s
    | none => none
  match truthyId with
  | some sid =>
      match pyGet store sid with
      | some session => (session, store)
      | none =>
          let session : Session := { session_id := sid }
          (session, pyInsert store sid session)
  | none =>
      let session : Session := { session_id := freshId }
      (session, pyInsert store freshId session)

end SessionManager

/-- The agent registry built by `create_action_agents` (the keys of the
returned dict). -/
def AGENT_NAMES : List String :=
  ["retrieve_agent", "general_agent", "clarification_agent",
   "escalation_agent", "ticket_agent", "password_agent"]

/-- `AgentPipeline._execute_action`.  `execAgent` is the per-capability
execution oracle for this message: each capability call either returns
an ActionResult or raises (the recent-turn history argument of
`execute` only influences the oracle outputs, which are universally
quantified in the theorems).  The result is paired with the name of the
capability whose `execute` call produced it — an observation used to
state the fallback claims.  An unknown target resolves to
"general_agent"; on failure the chain is fallback agent, then
"general_agent" (the last-resort guard compares the original
`target_agent`, not the resolved one, as the source does); if every
attempt fails the RuntimeError propagates as an error. -/
def executeAction (execAgent : String → Except Unit ActionResult)
    (decision : RoutingDecision) : Except Unit (ActionResult × String) :=
  let resolved :=
    if AGENT_NAMES.contains decision.target_agent then decision.target_agent
    else "general_agent"
  match execAgent resolved with
  | .ok r => .ok (r, resolved)
  | .error _ =>
      let afterFallback : Except Unit (ActionResult × String) :=
        match decision.fallback_agent with
        | some fb =>
            if AGENT_NAMES.contains fb then
              match execAgent fb with
              | .ok r => .ok (r, fb)
              | .error _ => .error ()
            else .error ()
        | none => .error ()
      match afterFallback with
      | .ok r => .ok r
      | .error _ =>
          if decision.target_agent ≠ "general_agent" then
            match execAgent "general_agent" with
            | .ok r => .ok (r, "general_agent")
            | .error _ => .error ()
          else .error ()

/-- The validation-failure result of `process` (empty input). -/
def emptyInputResult : ActionResult :=
  { content := "I didn\x27t receive a message. Could you please try again?"
    confidence := 0
    requires_followup := true }

/-- The catch-all error response built by the handler of `process`.
The string stored under "error" elides the Python `str(e)` of the
caught exception (no property below inspects it). -/
def pipelineErrorResult : ActionResult :=
  { content := "I apologize, but I encountered an issue processing your request. Please try again, or let me know if you\x27d like to speak with a human support agent."
    confidence := 0
    requires_followup := true
    suggested_actions := ["Try again", "Speak to human"]
    metadata := [("error", .str_ "<exception>")] }

/-- Python `session_id or str(uuid.uuid4())` (truthiness on the
optional id). -/
def pyOrStr (session_id : Option String) (freshId : String) : String :=
  match session_id with
  | some s => if s = "" then freshId else s
  | none => freshId

namespace AgentPipeline

/-- The try-block body of `AgentPipeline.process`: stage 1
(understanding, via the `analyze` outcome), stage 2 (routing, pure),
stage 3 (action execution with the fallback chain), then the turn
recording.  Any raised exception becomes an error, caught by the
handler in `process`. -/
def processBody (session : Session) (store : SessionStore)
    (user_message : String)
    (queryOutcome : Except PyErr QueryResult)
    (execAgent : String → Except Unit ActionResult) :
    Except Unit (ActionResult × SessionStore) :=
  match queryOutcome with
  | .error _ => .error ()
  | .ok structured_query =>
      let decision := RouterAgent.route structured_query
      match executeAction execAgent decision with
      | .error _ => .error ()
      | .ok (response, _producer) =>
          let session2 := session.add_turn user_message response.content
            structured_query.intent.value structured_query.get_entities_dict
            decision.target_agent response.confidence
          .ok (response, pyInsert store session.session_id session2)

/-- `AgentPipeline.process`.  Oracles: `llmOutcome` is the classification
completion call (raises or returns the parsed JSON object), `execAgent`
the per-capability execution outcomes, `freshId` the uuid4 value.  The
conversation context summary and recent-turn history fed to the
collaborators only influence oracle outputs, which the theorems
quantify over.  The `Except` result mirrors Python exception flow; the
theorems show every path is caught. -/
def process (store : SessionStore) (user_message : String)
    (session_id : Option String) (freshId : String)
    (llmOutcome : Except Unit (List (String × PyVal)))
    (execAgent : String → Except Unit ActionResult) :
    Except PyErr ((ActionResult × String) × SessionStore) :=
  if pyBlank user_message then
    .ok ((emptyInputResult, pyOrStr session_id freshId), store)
  else
    let ss := SessionManager.get_or_create store session_id freshId
    .ok (match processBody ss.1 ss.2 user_message
            (QueryAgent.analyze user_message llmOutcome).1 execAgent with
         | .ok (response, store2) => ((response, ss.1.session_id), store2)
         | .error _ => ((pipelineErrorResult, ss.1.session_id), ss.2))

end AgentPipeline

/-- Concrete input refuting claim C2 as stated: confidence below the
threshold, but the raw text contains the escalation trigger "kill". -/
def c2LowConfidenceQuery : QueryResult :=
  { original_query := "please kill the process", intent := .general_chat,
    entities := [], confidence := mkRat 3 10 }

/-- Hypothesis shape for the amended C7: the field is absent or holds a
JSON object. -/
def dictOrAbsent (resp : List (String × PyVal)) (k : String) : Prop :=
  match pyGet resp k with
  | none => True
  | some (.dict _) => True
  | some _ => False

/-- Hypothesis shape for the amended C7: a value `float()` accepts
without raising in this model (a number or a boolean). -/
def numericPyVal : PyVal → Prop
  | .num _ => True
  | .bool_ _ => True
  | _ => False

/-- Input for the C5 witness: an existing one-turn session whose
accumulated entities already hold the re-inserted pair. -/
def c5Store : SessionStore :=
  [("sess1", { session_id := "sess1"
               turns := [{ user_message := "Tell me about enrollment"
                           agent_response := "Sure."
                           intent := "knowledge_query"
                           entities := [("topic", "enrollment")]
                           routing := "retrieve_agent"
                           confidence := mkRat 4 5 }]
               all_entities := [("topic", "enrollment")] })]

/-- Classification oracle output for the C5 witness. -/
def c5Resp : List (String × PyVal) :=
  [("intent", PyVal.str_ "knowledge_query"), ("confidence", PyVal.num (mkRat 9 10)),
   ("entities", PyVal.dict [("topic", PyVal.str_ "enrollment")]),
   ("entity_confidences", PyVal.dict [("topic", PyVal.num (mkRat 9 10))])]

/-- Parsed query for the C5 witness (what `parseResponse` yields on
`c5Resp`). -/
def c5Query : QueryResult :=
  { original_query := "How do I enroll?"
    intent := .knowledge_query
    entities := [{ name := "topic", value := "enrollment",
                   entity_type := "topic", confidence := mkRat 9 10 }]
    confidence := mkRat 9 10
    metadata := [("urgency", .str_ "low")] }

/-- Capability oracle for the C5 witness: the primary target succeeds. -/
def c5Exec : String → Except Unit ActionResult := fun name =>
  if name = "retrieve_agent" then
    .ok { content := "Enrollment works as follows [1]." }
  else .error ()

/-- The fallback-produced result of the C1 counterexample. -/
def c1GeneralResult : ActionResult :=
  { content := "Happy to help with enrollment." }

/-- Capability oracle of the C1 counterexample: the routed target
(retrieve_agent) fails, the fallback (general_agent) succeeds. -/
def c1Exec : String → Except Unit ActionResult := fun name =>
  if name = "general_agent" then .ok c1GeneralResult else .error ()

/-- Classification oracle output of the C1 counterexample. -/
def c1Resp : List (String × PyVal) :=
  [("intent", PyVal.str_ "knowledge_query"), ("confidence", PyVal.num (mkRat 9 10))]

/-- The parsed query of the C1 counterexample. -/
def c1Query : QueryResult :=
  { original_query := "How do I enroll?"
    intent := .knowledge_query
    entities := []
    confidence := mkRat 9 10
    metadata := [("urgency", .str_ "low")] }

/-! Supporting lemmas, then the verified properties C1 - C10, each with
the concrete instances exercising it. -/

theorem pyGet_pyInsert_self {α : Type} (d : List (String × α)) (k : String) (v : α) :
    pyGet (pyInsert d k v) k = some v := by
  induction d with
  | nil => simp [pyInsert, pyGet]
  | cons hd tl ih =>
      by_cases h : hd.1 = k
      · simp [pyInsert, pyGet, h]
      · simp [pyInsert, pyGet, h, ih]

theorem pyGet_pyInsert_ne {α : Type} (d : List (String × α)) (k k' : String) (v : α)
    (h : k ≠ k') : pyGet (pyInsert d k v) k' = pyGet d k' := by
  induction d with
  | nil => simp [pyInsert, pyGet, h]
  | cons hd tl ih =>
      by_cases hh : hd.1 = k
      · simp [pyInsert, pyGet, hh, h]
      · simp [pyInsert, pyGet, hh, ih]

/-- Membership of a key is preserved by a single insert. -/
theorem pyGet_isSome_pyInsert {α : Type} (d : List (String × α)) (k k' : String) (v : α)
    (h : (pyGet d k').isSome) : (pyGet (pyInsert d k v) k').isSome := by
  by_cases hk : k = k'
  · subst hk; simp [pyGet_pyInsert_self]
  · rw [pyGet_pyInsert_ne d k k' v hk]; exact h

/-- Membership of a key is preserved by `pyUpdate`. -/
theorem pyGet_isSome_pyUpdate {α : Type} (d e : List (String × α)) (k : String)
    (h : (pyGet d k).isSome) : (pyGet (pyUpdate d e) k).isSome := by
  induction e generalizing d with
  | nil => simpa [pyUpdate] using h
  | cons hd tl ih =>
      show (pyGet (pyUpdate (pyInsert d hd.1 hd.2) tl) k).isSome
      exact ih _ (pyGet_isSome_pyInsert d hd.1 k hd.2 h)

/-- Inserting a binding that is already present verbatim is a no-op. -/
theorem pyInsert_eq_self_of_pyGet {α : Type} (d : List (String × α)) (k : String) (v : α)
    (h : pyGet d k = some v) : pyInsert d k v = d := by
  induction d with
  | nil => simp [pyGet] at h
  | cons hd tl ih =>
      obtain ⟨k1, v1⟩ := hd
      by_cases hh : k1 = k
      · subst hh
        simp [pyGet] at h
        simp [pyInsert, h]
      · simp [pyGet, hh] at h
        simp [pyInsert, hh, ih h]

/-- Updating with bindings that are all already present verbatim is a no-op. -/
theorem pyUpdate_eq_self_of_pyGet {α : Type} (d e : List (String × α))
    (h : ∀ kv ∈ e, pyGet d kv.1 = some kv.2) : pyUpdate d e = d := by
  induction e with
  | nil => simp [pyUpdate]
  | cons hd tl ih =>
      show pyUpdate (pyInsert d hd.1 hd.2) tl = d
      rw [pyInsert_eq_self_of_pyGet d hd.1 hd.2 (h hd (by simp))]
      exact ih (fun kv hkv => h kv (by simp [hkv]))

theorem pyBlank_iff (s : String) : pyBlank s = true ↔ pyStrip s = "" := by
  simp only [pyBlank, Bool.or_eq_true, decide_eq_true_eq]
  constructor
  · rintro (rfl | h)
    · decide
    · exact h
  · exact fun h => Or.inr h

theorem pyFloat_ne_invalidInput (v : PyVal) : pyFloat v ≠ .error .invalidInput := by
  cases v with
  | none_ => simp [pyFloat]
  | bool_ b => simp [pyFloat]
  | num q => simp [pyFloat]
  | str_ s =>
      cases hp : parseDecimal? s with
      | some q => simp [pyFloat, hp]
      | none => simp [pyFloat, hp]
  | list_ xs => simp [pyFloat]
  | dict d => simp [pyFloat]

theorem entityConfidence_ne_invalidInput (confidences : PyVal) (name : String) :
    QueryAgent.entityConfidence confidences name ≠ .error .invalidInput := by
  cases confidences with
  | dict cd =>
      simp only [QueryAgent.entityConfidence]
      exact pyFloat_ne_invalidInput _
  | none_ => simp [QueryAgent.entityConfidence]
  | bool_ b => simp [QueryAgent.entityConfidence]
  | num q => simp [QueryAgent.entityConfidence]
  | str_ s => simp [QueryAgent.entityConfidence]
  | list_ xs => simp [QueryAgent.entityConfidence]

theorem parseEntitiesList_ne_invalidInput (confidences : PyVal)
    (ed : List (String × PyVal)) :
    QueryAgent.parseEntitiesList confidences ed ≠ .error .invalidInput := by
  induction ed generalizing confidences with
  | nil => simp [QueryAgent.parseEntitiesList]
  | cons hd tl ih =>
      obtain ⟨name, value⟩ := hd
      intro h
      rw [QueryAgent.parseEntitiesList] at h
      split at h
      · exact ih confidences h
      · split at h
        · next e hf =>
            injection h with h2
            subst h2
            exact entityConfidence_ne_invalidInput _ _ hf
        · split at h
          · next e hr =>
              injection h with h2
              subst h2
              exact ih _ hr
          · exact Except.noConfusion h

theorem parseEntities_ne_invalidInput (entities_val confidences : PyVal) :
    QueryAgent.parseEntities entities_val confidences ≠ .error .invalidInput := by
  intro h
  cases entities_val with
  | dict ed =>
      simp only [QueryAgent.parseEntities] at h
      exact parseEntitiesList_ne_invalidInput _ _ h
  | none_ => simp [QueryAgent.parseEntities] at h
  | bool_ b => simp [QueryAgent.parseEntities] at h
  | num q => simp [QueryAgent.parseEntities] at h
  | str_ s => simp [QueryAgent.parseEntities] at h
  | list_ xs => simp [QueryAgent.parseEntities] at h

theorem parseResponse_ne_invalidInput (original_query : String)
    (llm_response : List (String × PyVal)) :
    QueryAgent.parseResponse original_query llm_response ≠ .error .invalidInput := by
  intro h
  rw [QueryAgent.parseResponse] at h
  split at h
  · next e he =>
      cases h
      exact parseEntities_ne_invalidInput _ _ he
  · split at h
    · next e hf =>
        cases h
        exact pyFloat_ne_invalidInput _ hf
    · exact Except.noConfusion h

theorem safety_mem_escalation :
    ∀ s ∈ RouterAgent.SAFETY_TRIGGERS, s ∈ RouterAgent.ESCALATION_TRIGGERS := by
  decide

/-- When the trigger scan fires, `route` returns the escalation decision
built by `_check_escalation_triggers`. -/
theorem route_escalates_of_trigger (query : QueryResult)
    (hne : RouterAgent.triggeredKeywords (pyLower query.original_query) ≠ []) :
    (RouterAgent.route query).target_agent = "escalation_agent" ∧
    (RouterAgent.route query).fallback_agent = none ∧
    (RouterAgent.route query).requires_escalation = true ∧
    (RouterAgent.route query).priority =
      (RouterAgent.escalationPriorityReason
        (RouterAgent.triggeredKeywords (pyLower query.original_query))).1 := by
  have hb : (RouterAgent.triggeredKeywords (pyLower query.original_query)).isEmpty = false := by
    cases h : RouterAgent.triggeredKeywords (pyLower query.original_query) with
    | nil => exact absurd h hne
    | cons a l => rfl
  rw [RouterAgent.route, RouterAgent.checkEscalationTriggers]
  simp [hb]

/-- Claim C4: any query whose raw text contains (case-insensitively) one
of the safety trigger keywords is routed to the escalation capability
with `escalate=true`, priority urgent and no fallback, regardless of the
classified intent, confidence, or clarification flag. -/
theorem C4_safety_trigger_escalation (query : QueryResult) (kw : String)
    (hkw : kw ∈ RouterAgent.SAFETY_TRIGGERS)
    (hc : strContains (pyLower query.original_query) kw = true) :
    (RouterAgent.route query).target_agent = "escalation_agent" ∧
    (RouterAgent.route query).priority = Priority.urgent ∧
    (RouterAgent.route query).fallback_agent = none ∧
    (RouterAgent.route query).requires_escalation = true := by
  have hmem : kw ∈ RouterAgent.ESCALATION_TRIGGERS := safety_mem_escalation kw hkw
  have htk : kw ∈ RouterAgent.triggeredKeywords (pyLower query.original_query) :=
    List.mem_filter.mpr ⟨hmem, hc⟩
  have hne : RouterAgent.triggeredKeywords (pyLower query.original_query) ≠ [] :=
    List.ne_nil_of_mem htk
  obtain ⟨h1, h2, h3, h4⟩ := route_escalates_of_trigger query hne
  refine ⟨h1, ?_, h2, h3⟩
  rw [h4, RouterAgent.escalationPriorityReason,
    if_pos (List.any_eq_true.mpr ⟨kw, htk, List.elem_eq_true_of_mem hkw⟩)]

/-- Witness for C4 at a concrete safety-trigger query. -/
theorem C4_witness :
    (RouterAgent.route
      { original_query := "I might hurt myself"
        intent := Intent.general_chat
        entities := []
        confidence := mkRat 9 10 }).priority = Priority.urgent :=
  (C4_safety_trigger_escalation _ "hurt myself" (by decide) (by decide)).2.1

/-- When the trigger scan does not fire, `_check_escalation_triggers`
returns None. -/
theorem checkEscalationTriggers_eq_none (query : QueryResult)
    (ht : RouterAgent.triggeredKeywords (pyLower query.original_query) = []) :
    RouterAgent.checkEscalationTriggers query = none := by
  rw [RouterAgent.checkEscalationTriggers]
  simp [ht]

/-- Claim C2 as stated is false: this StructuredQuery has confidence
0.3 < 0.6, yet `route` targets the escalation capability, not the
clarification capability, because the escalation-trigger scan runs
first. -/
theorem C2_counterexample :
    c2LowConfidenceQuery.confidence < RouterAgent.CONFIDENCE_THRESHOLD ∧
    (RouterAgent.route c2LowConfidenceQuery).target_agent = "escalation_agent" ∧
    (RouterAgent.route c2LowConfidenceQuery).target_agent ≠ "clarification_agent" := by
  refine ⟨by norm_num [c2LowConfidenceQuery, RouterAgent.CONFIDENCE_THRESHOLD], rfl, by decide⟩

/-- Claim C2, amended: provided no escalation trigger keyword occurs in
the raw text, every StructuredQuery with confidence strictly below 0.6
is routed to the clarification capability, regardless of intent (the
upstream-clarification branch and the low-confidence branch both target
it). -/
theorem C2_low_confidence_routes_to_clarification (query : QueryResult)
    (ht : RouterAgent.triggeredKeywords (pyLower query.original_query) = [])
    (hc : query.confidence < RouterAgent.CONFIDENCE_THRESHOLD) :
    (RouterAgent.route query).target_agent = "clarification_agent" := by
  rw [RouterAgent.route, checkEscalationTriggers_eq_none query ht]
  by_cases hcl : query.requires_clarification
  · simp [hcl]
  · simp [hcl, hc]

/-- Witness for the amended C2 at a concrete trigger-free query. -/
theorem C2_witness :
    (RouterAgent.route
      { original_query := "what about the other thing"
        intent := Intent.ticket_status
        entities := []
        confidence := mkRat 1 5 }).target_agent = "clarification_agent" :=
  C2_low_confidence_routes_to_clarification _ (by decide) (by norm_num [RouterAgent.CONFIDENCE_THRESHOLD])

/-- When no escalation trigger fires, the upstream clarification flag is
unset and the confidence clears the threshold, `route` takes the
routing-table branch. -/
theorem route_table_branch (query : QueryResult)
    (ht : RouterAgent.triggeredKeywords (pyLower query.original_query) = [])
    (hcl : query.requires_clarification = false)
    (hc : ¬ query.confidence < RouterAgent.CONFIDENCE_THRESHOLD) :
    RouterAgent.route query =
      { target_agent := (RouterAgent.ROUTING_TABLE query.intent).1
        parameters := RouterAgent.buildParameters query
        fallback_agent := (RouterAgent.ROUTING_TABLE query.intent).2
        priority := RouterAgent.determinePriority query
        reasoning := "Intent routed via table" } := by
  rw [RouterAgent.route, checkEscalationTriggers_eq_none query ht]
  simp [hcl, hc]

/-- For the knowledge-query intent, `_build_parameters` stores the raw
query text under "search_query". -/
theorem buildParameters_search_query (query : QueryResult)
    (hint : query.intent = Intent.knowledge_query) :
    pyGet (RouterAgent.buildParameters query) "search_query" =
      some (.str_ query.original_query) := by
  rw [RouterAgent.buildParameters]
  simp only [hint]
  exact pyGet_pyInsert_self _ _ _

theorem convertSources_isEmpty (sources : List RagSource) :
    (RetrieveActionAgent.convertSources sources).isEmpty = sources.isEmpty := by
  cases sources with
  | nil => rfl
  | cons a l => rfl

/-- Claim C8: StatusLookup without a ticket identifier (absent, None, or
otherwise falsy) asks for the number with `needs_followup=true` and
performs zero ticketing lookups; with a non-empty string identifier
whose normalization is unknown to the ticketing table, it returns the
not-found explanation as a normal ActionResult (ok, not an error), also
with `needs_followup=true`. -/
theorem C8_ticket_status_missing_and_unknown_id (decision : RoutingDecision) :
    (pyTruthy ((pyGet decision.parameters "ticket_id").getD .none_) = false →
      TicketStatusAgent.execute decision =
        .ok ({ content := TicketStatusAgent.noTicketIdContent
               confidence := mkRat 4 5
               requires_followup := true }, 0)) ∧
    (∀ tid, pyGet decision.parameters "ticket_id" = some (.str_ tid) → tid ≠ "" →
      pyGet TicketStatusAgent.MOCK_STATUSES (TicketStatusAgent.normalizeTicketId tid) = none →
      TicketStatusAgent.execute decision =
        .ok ({ content := TicketStatusAgent.notFoundContent tid
               confidence := mkRat 7 10
               requires_followup := true
               suggested_actions := ["Try another ticket number",
                                     "Create new ticket", "Talk to support"] }, 1)) := by
  constructor
  · intro h
    rw [TicketStatusAgent.execute]
    simp [h]
  · intro tid hget hne hlook
    rw [TicketStatusAgent.execute]
    simp [hget, pyTruthy, hne, hlook]

/-- Witness for C8: a decision with no parameters at all, and one with
the unknown ticket id "TKT-99999". -/
theorem C8_witness :
    (TicketStatusAgent.execute { target_agent := "ticket_agent" } =
      .ok ({ content := TicketStatusAgent.noTicketIdContent
             confidence := mkRat 4 5
             requires_followup := true }, 0)) ∧
    (TicketStatusAgent.execute
        { target_agent := "ticket_agent"
          parameters := [("ticket_id", PyVal.str_ "TKT-99999")] } =
      .ok ({ content := TicketStatusAgent.notFoundContent "TKT-99999"
             confidence := mkRat 7 10
             requires_followup := true
             suggested_actions := ["Try another ticket number",
                                   "Create new ticket", "Talk to support"] }, 1)) :=
  ⟨(C8_ticket_status_missing_and_unknown_id { target_agent := "ticket_agent" }).1 rfl,
   (C8_ticket_status_missing_and_unknown_id
      { target_agent := "ticket_agent"
        parameters := [("ticket_id", PyVal.str_ "TKT-99999")] }).2
     "TKT-99999" rfl (by decide) rfl⟩

/-- Claim C9: a RoutingDecision built by the router for the
knowledge-query intent (non-empty search phrase) carries the raw query
as "search_query" and targets RetrievalAnswer; executing it when the
retrieval collaborator returns zero passages yields
`needs_followup=true` with confidence 0.5 — strictly below the 0.85
produced when passages are returned — and never an error. -/
theorem C9_retrieval_zero_passages (query : QueryResult)
    (hint : query.intent = Intent.knowledge_query)
    (ht : RouterAgent.triggeredKeywords (pyLower query.original_query) = [])
    (hcl : query.requires_clarification = false)
    (hc : ¬ query.confidence < RouterAgent.CONFIDENCE_THRESHOLD)
    (_hq : query.original_query ≠ "")
    (rag : RagResponse) (fb : Except Unit String) :
    (RouterAgent.route query).target_agent = "retrieve_agent" ∧
    pyGet (RouterAgent.route query).parameters "search_query" =
      some (.str_ query.original_query) ∧
    (rag.sources = [] →
      ∃ r, RetrieveActionAgent.execute (.ok rag) fb (RouterAgent.route query) = .ok r ∧
        r.requires_followup = true ∧ r.confidence = mkRat 1 2) ∧
    (rag.sources ≠ [] →
      ∃ r, RetrieveActionAgent.execute (.ok rag) fb (RouterAgent.route query) = .ok r ∧
        r.requires_followup = false ∧ r.confidence = mkRat 17 20) ∧
    (mkRat 1 2 < mkRat 17 20) := by
  have hroute := route_table_branch query ht hcl hc
  refine ⟨by rw [hroute, hint]; rfl,
          by rw [hroute]; exact buildParameters_search_query query hint, ?_, ?_, by norm_num⟩
  · intro hs
    refine ⟨_, rfl, ?_, ?_⟩ <;>
      simp [RetrieveActionAgent.execute, RetrieveActionAgent.convertSources,
        RetrieveActionAgent.convertSourcesFrom, hs]
  · intro hs
    have hb : (RetrieveActionAgent.convertSources rag.sources).isEmpty = false := by
      rw [convertSources_isEmpty]
      cases h : rag.sources with
      | nil => exact absurd h hs
      | cons a l => rfl
    refine ⟨_, rfl, ?_, ?_⟩ <;> simp [RetrieveActionAgent.execute, hb]

/-- Witness for C9: a concrete knowledge query executed against a
zero-passage retrieval response and against a one-passage response. -/
theorem C9_witness :
    (∃ r, RetrieveActionAgent.execute
        (.ok { answer := "I do not have enough information about that." })
        (.ok "x")
        (RouterAgent.route
          { original_query := "How do I reset my password?"
            intent := Intent.knowledge_query
            entities := []
            confidence := mkRat 4 5 }) = .ok r ∧
      r.requires_followup = true ∧ r.confidence = mkRat 1 2) ∧
    (∃ r, RetrieveActionAgent.execute
        (.ok { answer := "Use the portal reset page [1]."
               sources := [{ content := "Reset steps", score := mkRat 9 10 }] })
        (.ok "x")
        (RouterAgent.route
          { original_query := "How do I reset my password?"
            intent := Intent.knowledge_query
            entities := []
            confidence := mkRat 4 5 }) = .ok r ∧
      r.requires_followup = false ∧ r.confidence = mkRat 17 20) :=
  ⟨(C9_retrieval_zero_passages _ rfl (by decide) rfl (by norm_num [RouterAgent.CONFIDENCE_THRESHOLD])
      (by decide) _ _).2.2.1 rfl,
   (C9_retrieval_zero_passages _ rfl (by decide) rfl (by norm_num [RouterAgent.CONFIDENCE_THRESHOLD])
      (by decide) _ _).2.2.2.1 (List.cons_ne_nil _ _)⟩

/-- Claim C6: `QueryAgent.analyze` raises the invalid-input error exactly
when the raw query is empty or all-whitespace, and the completion-call
count is zero exactly in that case — so the guard fires before any call
to the external language-model collaborator, and no other path raises
that error. -/
theorem C6_analyze_invalid_input_before_llm (query : String)
    (llmOutcome : Except Unit (List (String × PyVal))) :
    ((QueryAgent.analyze query llmOutcome).1 = Except.error PyErr.invalidInput
        ↔ pyStrip query = "") ∧
    ((QueryAgent.analyze query llmOutcome).2 = 0 ↔ pyStrip query = "") := by
  by_cases hb : pyBlank query
  · have ht := (pyBlank_iff query).1 hb
    rw [QueryAgent.analyze.eq_def, if_pos hb]
    simp [ht]
  · have ht : ¬ pyStrip query = "" := fun h => hb ((pyBlank_iff query).2 h)
    rw [QueryAgent.analyze.eq_def, if_neg hb]
    cases llmOutcome with
    | error e =>
        refine ⟨⟨fun h => absurd (Except.error.inj h) (by simp), fun h => absurd h ht⟩, ?_⟩
        simp [ht]
    | ok llm_response =>
        refine ⟨⟨fun h => absurd h (parseResponse_ne_invalidInput _ _),
                 fun h => absurd h ht⟩, ?_⟩
        simp [ht]

/-- Witness for C6 at a whitespace-only query and a non-blank query. -/
theorem C6_witness :
    (QueryAgent.analyze "   " (Except.ok [])).1 = Except.error PyErr.invalidInput ∧
    ¬ (QueryAgent.analyze "hi" (Except.ok [])).2 = 0 :=
  ⟨(C6_analyze_invalid_input_before_llm "   " (Except.ok [])).1.mpr (by decide),
   fun h => absurd ((C6_analyze_invalid_input_before_llm "hi" (Except.ok [])).2.mp h)
     (by decide)⟩

theorem pyGet_mem {α : Type} (d : List (String × α)) (k : String) (v : α)
    (h : pyGet d k = some v) : (k, v) ∈ d := by
  induction d with
  | nil => simp [pyGet] at h
  | cons hd tl ih =>
      by_cases hh : hd.1 = k
      · rw [pyGet, if_pos hh] at h
        injection h with h2
        have he : (k, v) = hd := by
          rw [← hh, ← h2]
        rw [he]
        exact List.mem_cons_self _ _
      · rw [pyGet, if_neg hh] at h
        exact List.mem_cons_of_mem _ (ih h)

theorem pyFloat_ok_of_numeric (v : PyVal) (h : numericPyVal v) :
    ∃ q, pyFloat v = .ok q := by
  cases v with
  | num q => exact ⟨q, rfl⟩
  | bool_ b => exact ⟨if b then 1 else 0, rfl⟩
  | none_ => cases h
  | str_ s => cases h
  | list_ xs => cases h
  | dict d => cases h

theorem parseEntitiesList_ok_of_numeric (cd : List (String × PyVal))
    (ed : List (String × PyVal)) (h : ∀ kv ∈ cd, numericPyVal kv.2) :
    ∃ es, QueryAgent.parseEntitiesList (.dict cd) ed = .ok es := by
  induction ed with
  | nil => exact ⟨[], rfl⟩
  | cons hd tl ih =>
      obtain ⟨name, value⟩ := hd
      obtain ⟨es, hes⟩ := ih
      by_cases hn : value.isNone
      · exact ⟨es, by rw [QueryAgent.parseEntitiesList, if_pos hn]; exact hes⟩
      · have hconf : ∃ q, QueryAgent.entityConfidence (.dict cd) name = .ok q := by
          rw [QueryAgent.entityConfidence]
          cases hg : pyGet cd name with
          | none => exact ⟨mkRat 4 5, by simp [hg, pyFloat]⟩
          | some x =>
              obtain ⟨q, hq⟩ := pyFloat_ok_of_numeric x (h (name, x) (pyGet_mem cd name x hg))
              exact ⟨q, by simp [hg, hq]⟩
        obtain ⟨q, hq⟩ := hconf
        refine ⟨{ name := name, value := pyStr value,
                  entity_type := QueryAgent.entityTypeMapping name,
                  confidence := q } :: es, ?_⟩
        rw [QueryAgent.parseEntitiesList, if_neg hn, hq, hes]

/-- Claim C7 as stated is false at a concrete classification output:
`\x7b"confidence": null\x7d` makes the understanding stage raise
(Python `float(None)` is a TypeError), rather than produce a
StructuredQuery. -/
theorem C7_counterexample :
    QueryAgent.parseResponse "hi" [("confidence", PyVal.none_)] =
      Except.error PyErr.floatTypeError := rfl

/-- Claim C7, amended: for every classification output whose
`entities` / `entity_confidences` fields, when present, are JSON
objects, and whose confidence values (top-level and per-entity), when
present, are numeric, the understanding stage produces a
StructuredQuery without raising; an intent string outside the fixed
taxonomy is coerced to the unknown variant, and a missing confidence
field defaults to 0.5. -/
theorem C7_malformed_output_coercion (original_query : String)
    (resp : List (String × PyVal))
    (hent : dictOrAbsent resp "entities")
    (hconf : dictOrAbsent resp "entity_confidences")
    (hcv : ∀ cd, (pyGet resp "entity_confidences").getD (.dict []) = .dict cd →
      ∀ kv ∈ cd, numericPyVal kv.2)
    (hc : ∀ v, pyGet resp "confidence" = some v → numericPyVal v) :
    ∃ qr, QueryAgent.parseResponse original_query resp = .ok qr ∧
      (∀ s, pyGet resp "intent" = some (.str_ s) → Intent.ofString? s = none →
        qr.intent = .unknown) ∧
      (pyGet resp "confidence" = none → qr.confidence = mkRat 1 2) := by
  obtain ⟨ed, hed⟩ : ∃ ed, (pyGet resp "entities").getD (.dict []) = .dict ed := by
    rw [dictOrAbsent] at hent
    cases hg : pyGet resp "entities" with
    | none => exact ⟨[], by simp [hg]⟩
    | some v =>
        rw [hg] at hent
        cases v with
        | dict d => exact ⟨d, by simp [hg]⟩
        | none_ => cases hent
        | bool_ b => cases hent
        | num q => cases hent
        | str_ s => cases hent
        | list_ xs => cases hent
  obtain ⟨cd, hcd⟩ : ∃ cd,
      (pyGet resp "entity_confidences").getD (.dict []) = .dict cd := by
    rw [dictOrAbsent] at hconf
    cases hg : pyGet resp "entity_confidences" with
    | none => exact ⟨[], by simp [hg]⟩
    | some v =>
        rw [hg] at hconf
        cases v with
        | dict d => exact ⟨d, by simp [hg]⟩
        | none_ => cases hconf
        | bool_ b => cases hconf
        | num q => cases hconf
        | str_ s => cases hconf
        | list_ xs => cases hconf
  obtain ⟨es, hes⟩ :=
    parseEntitiesList_ok_of_numeric cd ed (hcv cd hcd)
  have hentities : QueryAgent.parseEntities
      ((pyGet resp "entities").getD (.dict []))
      ((pyGet resp "entity_confidences").getD (.dict [])) = .ok es := by
    rw [hed, hcd, QueryAgent.parseEntities]
    exact hes
  have hfloat : ∃ q, pyFloat ((pyGet resp "confidence").getD (.num (mkRat 1 2))) = .ok q ∧
      (pyGet resp "confidence" = none → q = mkRat 1 2) := by
    cases hg : pyGet resp "confidence" with
    | none => exact ⟨mkRat 1 2, by simp [hg, pyFloat], fun _ => rfl⟩
    | some v =>
        obtain ⟨q, hq⟩ := pyFloat_ok_of_numeric v (hc v hg)
        exact ⟨q, by simp [hg, hq], fun h => absurd h (by simp [hg])⟩
  obtain ⟨q, hq, hqdef⟩ := hfloat
  rw [QueryAgent.parseResponse, hentities, hq]
  refine ⟨_, rfl, ?_, ?_⟩
  · intro s hs hnone
    simp [hs, hnone]
  · intro hnone
    simp [hqdef hnone]

/-- Witness for the amended C7: an output whose only field is an
out-of-taxonomy intent string parses to the unknown intent with the
0.5 default confidence. -/
theorem C7_witness :
    ∃ qr, QueryAgent.parseResponse "hi" [("intent", PyVal.str_ "bogus_intent")] =
        .ok qr ∧ qr.intent = Intent.unknown ∧ qr.confidence = mkRat 1 2 := by
  obtain ⟨qr, hok, hint, hconf⟩ :=
    C7_malformed_output_coercion "hi" [("intent", PyVal.str_ "bogus_intent")]
      trivial trivial
      (by intro cd hcd kv hkv; injection hcd with h2; rw [← h2] at hkv; cases hkv)
      (by intro v hv; cases hv)
  exact ⟨qr, hok, hint "bogus_intent" rfl rfl, hconf rfl⟩

theorem executeAction_error_of_all_fail
    (execAgent : String → Except Unit ActionResult) (decision : RoutingDecision)
    (h : ∀ name, execAgent name = .error ()) :
    executeAction execAgent decision = .error () := by
  rw [executeAction]
  simp only [h]
  cases decision.fallback_agent with
  | none => simp [h]
  | some fb => by_cases hfb : AGENT_NAMES.contains fb <;> simp [h, hfb]

/-- A successful run of `process` (non-blank input, classification
parsed, some capability produced a result): the full input/output
relation, shared by the session-level claims. -/
theorem process_success_run (store : SessionStore) (user_message : String)
    (session_id : Option String) (freshId : String)
    (resp : List (String × PyVal))
    (execAgent : String → Except Unit ActionResult)
    (hb : pyBlank user_message = false)
    (sq : QueryResult) (hq : QueryAgent.parseResponse user_message resp = .ok sq)
    (r : ActionResult × String)
    (hx : executeAction execAgent (RouterAgent.route sq) = .ok r) :
    AgentPipeline.process store user_message session_id freshId (.ok resp) execAgent =
      .ok ((r.1, (SessionManager.get_or_create store session_id freshId).1.session_id),
        pyInsert (SessionManager.get_or_create store session_id freshId).2
          (SessionManager.get_or_create store session_id freshId).1.session_id
          ((SessionManager.get_or_create store session_id freshId).1.add_turn
            user_message r.1.content sq.intent.value sq.get_entities_dict
            (RouterAgent.route sq).target_agent r.1.confidence)) := by
  obtain ⟨r1, producer⟩ := r
  have hb' : ¬ (pyBlank user_message = true) := by simp [hb]
  have ha : (QueryAgent.analyze user_message (.ok resp)).1 = .ok sq := by
    rw [QueryAgent.analyze.eq_def, if_neg hb']
    simpa using hq
  rw [AgentPipeline.process, if_neg hb']
  simp only [ha, AgentPipeline.processBody, hx]

/-- Claim C3: `process` returns an ok pair for every input — no
exception reaches the caller — and when the input is non-blank and
every capability call fails (primary, fallback, general chat), the
returned ActionResult is the synthetic apology with confidence 0. -/
theorem C3_process_never_raises (store : SessionStore) (user_message : String)
    (session_id : Option String) (freshId : String)
    (llmOutcome : Except Unit (List (String × PyVal)))
    (execAgent : String → Except Unit ActionResult) :
    (∃ out, AgentPipeline.process store user_message session_id freshId
        llmOutcome execAgent = .ok out) ∧
    (pyBlank user_message = false → (∀ name, execAgent name = .error ()) →
      AgentPipeline.process store user_message session_id freshId llmOutcome execAgent =
        .ok ((pipelineErrorResult,
              (SessionManager.get_or_create store session_id freshId).1.session_id),
             (SessionManager.get_or_create store session_id freshId).2) ∧
      pipelineErrorResult.confidence = 0) := by
  constructor
  · by_cases hb : pyBlank user_message
    · exact ⟨_, by rw [AgentPipeline.process, if_pos hb]⟩
    · exact ⟨_, by rw [AgentPipeline.process, if_neg hb]⟩
  · intro hb hall
    have hb' : ¬ (pyBlank user_message = true) := by simp [hb]
    refine ⟨?_, rfl⟩
    rw [AgentPipeline.process, if_neg hb']
    cases hqa : (QueryAgent.analyze user_message llmOutcome).1 with
    | error e => simp only [hqa, AgentPipeline.processBody]
    | ok sq =>
        simp only [hqa, AgentPipeline.processBody,
          executeAction_error_of_all_fail execAgent _ hall]

/-- Witness for C3: every capability fails on "Hello!"; the pipeline
still answers with the apology result and a session id. -/
theorem C3_witness :
    AgentPipeline.process [] "Hello!" none "s1"
        (.ok [("intent", PyVal.str_ "general_chat")]) (fun _ => .error ()) =
      .ok ((pipelineErrorResult, "s1"), [("s1", { session_id := "s1" })]) :=
  ((C3_process_never_raises [] "Hello!" none "s1"
      (.ok [("intent", PyVal.str_ "general_chat")]) (fun _ => .error ())).2
    rfl (fun _ => rfl)).1

/-- Claim C5: a successful `process` call appends exactly one turn to
the session recorded under the returned id, preserves every key already
present in the accumulated entity map, and re-inserting identical
entity name/value pairs leaves the map unchanged. -/
theorem C5_turn_append_entity_monotone (store : SessionStore)
    (user_message : String) (session_id : Option String) (freshId : String)
    (resp : List (String × PyVal)) (execAgent : String → Except Unit ActionResult)
    (hb : pyBlank user_message = false)
    (sq : QueryResult) (hq : QueryAgent.parseResponse user_message resp = .ok sq)
    (r : ActionResult × String)
    (hx : executeAction execAgent (RouterAgent.route sq) = .ok r) :
    ∃ store2 s2,
      AgentPipeline.process store user_message session_id freshId (.ok resp) execAgent =
        .ok ((r.1, (SessionManager.get_or_create store session_id freshId).1.session_id),
             store2) ∧
      pyGet store2 (SessionManager.get_or_create store session_id freshId).1.session_id =
        some s2 ∧
      s2.turns.length =
        (SessionManager.get_or_create store session_id freshId).1.turns.length + 1 ∧
      (∀ k, (pyGet (SessionManager.get_or_create store session_id freshId).1.all_entities
          k).isSome → (pyGet s2.all_entities k).isSome) ∧
      ((∀ kv ∈ sq.get_entities_dict,
          pyGet (SessionManager.get_or_create store session_id freshId).1.all_entities
            kv.1 = some kv.2) →
        s2.all_entities =
          (SessionManager.get_or_create store session_id freshId).1.all_entities) := by
  refine ⟨_, _,
    process_success_run store user_message session_id freshId resp execAgent hb sq hq r hx,
    pyGet_pyInsert_self _ _ _, ?_, ?_, ?_⟩
  · simp [Session.add_turn]
  · intro k hk
    exact pyGet_isSome_pyUpdate _ _ _ hk
  · intro h
    simp only [Session.add_turn]
    exact pyUpdate_eq_self_of_pyGet _ _ h

/-- Witness for C5 on a concrete second turn in an existing session. -/
theorem C5_witness :
    ∃ store2 s2,
      AgentPipeline.process c5Store "How do I enroll?" (some "sess1") "u1"
          (.ok c5Resp) c5Exec =
        .ok (({ content := "Enrollment works as follows [1]." }, "sess1"), store2) ∧
      pyGet store2 "sess1" = some s2 ∧
      s2.turns.length = 2 ∧
      (∀ k, (pyGet [("topic", "enrollment")] k).isSome →
        (pyGet s2.all_entities k).isSome) ∧
      ((∀ kv ∈ c5Query.get_entities_dict,
          pyGet ([("topic", "enrollment")] : List (String × String)) kv.1 = some kv.2) →
        s2.all_entities = [("topic", "enrollment")]) :=
  C5_turn_append_entity_monotone c5Store "How do I enroll?" (some "sess1") "u1"
    c5Resp c5Exec rfl c5Query rfl
    ({ content := "Enrollment works as follows [1]." }, "retrieve_agent") rfl

/-- Claim C1, amended: the ConversationTurn recorded by a successful
`process` call always carries `RoutingDecision.target_capability` — the
originally routed target — in its capability field, including runs in
which a fallback capability produced the content; it coincides with the
producing capability only when no fallback occurred. -/
theorem C1_recorded_capability_is_routed_target (store : SessionStore)
    (user_message : String) (session_id : Option String) (freshId : String)
    (resp : List (String × PyVal)) (execAgent : String → Except Unit ActionResult)
    (hb : pyBlank user_message = false)
    (sq : QueryResult) (hq : QueryAgent.parseResponse user_message resp = .ok sq)
    (r : ActionResult × String)
    (hx : executeAction execAgent (RouterAgent.route sq) = .ok r) :
    ∃ store2 s2,
      AgentPipeline.process store user_message session_id freshId (.ok resp) execAgent =
        .ok ((r.1, (SessionManager.get_or_create store session_id freshId).1.session_id),
             store2) ∧
      pyGet store2 (SessionManager.get_or_create store session_id freshId).1.session_id =
        some s2 ∧
      s2.turns.getLast? = some
        { user_message := user_message
          agent_response := r.1.content
          intent := sq.intent.value
          entities := sq.get_entities_dict
          routing := (RouterAgent.route sq).target_agent
          confidence := r.1.confidence } := by
  refine ⟨_, _,
    process_success_run store user_message session_id freshId resp execAgent hb sq hq r hx,
    pyGet_pyInsert_self _ _ _, ?_⟩
  simp [Session.add_turn]

/-- Claim C1 as stated is false on this run: the primary capability
(retrieve_agent) fails and general_agent produces the content, yet the
recorded turn carries "retrieve_agent" — the originally requested
target — not the capability that actually produced the content. -/
theorem C1_counterexample :
    executeAction c1Exec (RouterAgent.route c1Query) =
      .ok (c1GeneralResult, "general_agent") ∧
    AgentPipeline.process [] "How do I enroll?" none "s1" (.ok c1Resp) c1Exec =
      .ok ((c1GeneralResult, "s1"),
        [("s1", { session_id := "s1"
                  turns := [{ user_message := "How do I enroll?"
                              agent_response := "Happy to help with enrollment."
                              intent := "knowledge_query"
                              entities := []
                              routing := "retrieve_agent"
                              confidence := mkRat 4 5 }]
                  all_entities := [] })]) ∧
    ("retrieve_agent" : String) ≠ "general_agent" :=
  ⟨rfl, rfl, by decide⟩

/-- Witness for the amended C1: the same fallback run, where the
recorded capability equals the routed target. -/
theorem C1_witness :
    ∃ store2 s2,
      AgentPipeline.process [] "How do I enroll?" none "s1" (.ok c1Resp) c1Exec =
        .ok ((c1GeneralResult, "s1"), store2) ∧
      pyGet store2 "s1" = some s2 ∧
      s2.turns.getLast? = some
        { user_message := "How do I enroll?"
          agent_response := c1GeneralResult.content
          intent := "knowledge_query"
          entities := []
          routing := (RouterAgent.route c1Query).target_agent
          confidence := c1GeneralResult.confidence } :=
  C1_recorded_capability_is_routed_target [] "How do I enroll?" none "s1"
    c1Resp c1Exec rfl c1Query rfl (c1GeneralResult, "general_agent") rfl

/-- Claim C10: on blank input, `process` returns the retry prompt with
a session id but the session store is completely unchanged; since the
freshly generated id is never registered, presenting it later creates a
brand-new session (no turns) rather than continuing one. -/
theorem C10_blank_input_frame (store : SessionStore) (user_message : String)
    (session_id : Option String) (freshId : String)
    (llmOutcome : Except Unit (List (String × PyVal)))
    (execAgent : String → Except Unit ActionResult)
    (hb : pyBlank user_message = true) :
    AgentPipeline.process store user_message session_id freshId llmOutcome execAgent =
      .ok ((emptyInputResult, pyOrStr session_id freshId), store) ∧
    (∀ g2, freshId ≠ "" → pyGet store freshId = none →
      SessionManager.get_or_create store (some freshId) g2 =
        ({ session_id := freshId },
         pyInsert store freshId { session_id := freshId })) := by
  constructor
  · rw [AgentPipeline.process, if_pos hb]
  · intro g2 hne hnone
    rw [SessionManager.get_or_create]
    simp [hne, hnone]

/-- Witness for C10: an all-whitespace message against a one-session
store; the store is returned unchanged and the fresh id starts a new
session on a later call. -/
theorem C10_witness :
    AgentPipeline.process [("a", { session_id := "a" })] "   " none "u1"
        (.ok []) (fun _ => .error ()) =
      .ok ((emptyInputResult, "u1"), [("a", { session_id := "a" })]) ∧
    SessionManager.get_or_create [("a", { session_id := "a" })] (some "u1") "u2" =
      ({ session_id := "u1" },
       [("a", { session_id := "a" }), ("u1", { session_id := "u1" })]) :=
  ⟨(C10_blank_input_frame [("a", { session_id := "a" })] "   " none "u1"
      (.ok []) (fun _ => .error ()) rfl).1,
   (C10_blank_input_frame [("a", { session_id := "a" })] "   " none "u1"
      (.ok []) (fun _ => .error ()) rfl).2 "u2" (by decide) rfl⟩

end Orchestration
